import Mathlib

/-!
Shallow embedding of the appointment-booking backend:
the RBAC permission engine (`src/lib/permissions` as re-exported through
`src/middlewares.ts`) and the appointments controller
(`src/controllers/appointmentsController.ts`) together with the
appointment route registrations.

Conventions used throughout:

* JSON body fields that may be absent or explicitly `null` are modelled as
  `Option (Option String)`: `none` = absent (JS `undefined`),
  `some none` = JSON `null`, `some (some s)` = a string value.
* The external storage collaborator (supabase) is modelled as an explicit
  in-memory database `Db`; `.eq(...).single()` lookups become list
  membership / `find?`, an empty result being the `PGRST116` error branch.
* `new Date(s)` applied to the time-of-day strings accepted by
  `z.iso.time` follows the V8 legacy parser, which places a bare time on a
  fixed default date; two such values therefore compare as
  milliseconds-of-day.
-/

namespace Backend

/-! ## Permission engine (`src/lib/permissions`) -/

inductive Action
  | create
  | delete
  | update
  | view
deriving DecidableEq, Repr

inductive Resource
  | business
  | user
  | waitlistEntry
  | review
  | serviceGroup
  | adminUser
  | appointment
  | productOrderItem
  | productOrder
  | product
  | staffRecurringAvailability
  | staffServiceAssignment
deriving DecidableEq, Repr

def ALL_ACTIONS : List Action :=
  [Action.create, Action.delete, Action.update, Action.view]

/-- `permissionStatements`: built by the source's loop mapping every resource
of `ALL_RESOURCES` (which enumerates the whole `Resource` type) to
`ALL_ACTIONS`. -/
def permissionStatements : Resource → Option (List Action) :=
  fun _ => some ALL_ACTIONS

def businessOwnerPermissions : Resource → Option (List Action)
  | .business => some [.view, .create, .update, .delete]
  | .user => some [.update, .view, .create]
  | .waitlistEntry => some [.view, .create, .update, .delete]
  | .review => some [.view]
  | .serviceGroup => some [.view, .create, .update, .delete]
  | .appointment => some [.view, .create, .update, .delete]
  | .productOrderItem => some [.view, .create, .update, .delete]
  | .productOrder => some [.view, .create, .update, .delete]
  | .product => some [.view, .create, .update, .delete]
  | .staffRecurringAvailability => some [.view, .create, .update, .delete]
  | .staffServiceAssignment => some [.view, .create, .update, .delete]
  | .adminUser => none

def businessStaffPermissions : Resource → Option (List Action)
  | .user => some [.update, .view, .create]
  | .business => some [.view, .update]
  | .product => some [.view, .create, .update, .delete]
  | .productOrderItem => some [.view, .delete]
  | .productOrder => some [.view, .delete]
  | .staffRecurringAvailability => some [.view, .create, .update, .delete]
  | .staffServiceAssignment => some [.view, .create, .update, .delete]
  | _ => none

def customerPermissions : Resource → Option (List Action)
  | .business => some [.view]
  | .appointment => some [.view, .create, .delete, .update]
  | .review => some [.view, .create, .update, .delete]
  | .productOrderItem => some [.view, .create, .update, .delete]
  | .productOrder => some [.view, .create, .update, .delete]
  | .product => some [.view]
  | .user => some [.update, .view, .create]
  | _ => none

/-- `ALL_PERMISSIONS`: role name (an arbitrary string at runtime) to that
role's permission map; unknown role names are absent from the record. -/
def ALL_PERMISSIONS : String → Option (Resource → Option (List Action)) :=
  fun role =>
    if role = "admin" then some permissionStatements
    else if role = "businessOwner" then some businessOwnerPermissions
    else if role = "businessStaff" then some businessStaffPermissions
    else if role = "customer" then some customerPermissions
    else none

/-- One iteration of the role loop in `canAccessResource`:
`ALL_PERMISSIONS[role]`, then `permissionsForRole[resource]`, then
`allowedActionsForResource.includes(action)`; any missing lookup yields
`false`. -/
def roleGrants (role : String) (res : Resource) (act : Action) : Bool :=
  match ALL_PERMISSIONS role with
  | some perms =>
    match perms res with
    | some acts => acts.contains act
    | none => false
  | none => false

/-- The `for (const role of userRoles) { ... break }` loop of
`canAccessResource`: short-circuit disjunction over the role list. -/
def hasPermission (roles : List String) (res : Resource) (act : Action) : Bool :=
  roles.any (fun role => roleGrants role res act)

/-- `user.role.split(',')` — JS `String.prototype.split` with a one-character
separator (structural recursion so that concrete values reduce). -/
def splitOnCharAux (sep : Char) : List Char → List Char → List String
  | [], acc => [String.mk acc.reverse]
  | c :: rest, acc =>
    if c = sep then String.mk acc.reverse :: splitOnCharAux sep rest []
    else splitOnCharAux sep rest (c :: acc)

def splitOnChar (sep : Char) (s : String) : List String :=
  splitOnCharAux sep s.data []

def splitComma (s : String) : List String :=
  splitOnChar ',' s

/-- `req.user` after `getUser`: the middleware stores the authenticated
user, whose `role` claim may be missing. -/
structure AuthUser where
  role : Option String
deriving DecidableEq, Repr

inductive GateResult
  | unauthorized
  | forbidden
  | handlerRun
deriving DecidableEq, Repr

/-- The `canAccessResource(resource, action)` middleware.  `none` user means
`getUser` failed (401 already sent); `!user.role` (missing or empty string)
is 403; otherwise the role-loop decides. -/
def canAccessResource (res : Resource) (act : Action) (user : Option AuthUser) :
    GateResult :=
  match user with
  | none => .unauthorized
  | some u =>
    match u.role with
    | none => .forbidden
    | some roleStr =>
      if roleStr.isEmpty then .forbidden
      else if hasPermission (splitComma roleStr) res act then .handlerRun
      else .forbidden

/-- The `checkForUser` middleware: authentication only, roles never read. -/
def checkForUser (user : Option AuthUser) : GateResult :=
  match user with
  | none => .unauthorized
  | some _ => .handlerRun

inductive Guard
  | unguarded
  | checkForUser
  | canAccessResource (res : Resource) (act : Action)
deriving DecidableEq, Repr

def runGuard : Guard → Option AuthUser → GateResult
  | .unguarded, _ => .handlerRun
  | .checkForUser, u => checkForUser u
  | .canAccessResource res act, u => canAccessResource res act u

structure Route where
  method : String
  path : String
  guard : Guard
deriving DecidableEq, Repr

/-- The appointment router's registrations (`routes/appointments.ts`). -/
def appointmentRoutes : List Route :=
  [ ⟨"GET", "/businesses/:businessId/appointments", .unguarded⟩,
    ⟨"POST", "/businesses/:businessId/appointments", .checkForUser⟩,
    ⟨"PUT", "/appointments/:id", .checkForUser⟩,
    ⟨"DELETE", "/appointments/:id", .checkForUser⟩,
    ⟨"PATCH", "/appointments/:id/status", .checkForUser⟩ ]

/-! ## Appointments data model (`controllers/appointmentsController.ts`) -/

inductive Status
  | pending
  | confirmed
  | cancelled
  | completed
deriving DecidableEq, Repr

structure Appointment where
  id : String
  business_id : String
  service_id : String
  user_id : Option String
  staff_user_id : Option String
  business_customer_id : Option String
  start_time : String
  end_time : String
  status : Status
  created_at : String
  updated_at : String
deriving DecidableEq, Repr

/-- A create-appointment request body in which the required keys
(`service_id`, `start_time`, `end_time`) are present as strings; the
optional/nullable keys distinguish absent (`none`), JSON `null`
(`some none`) and a value (`some (some s)`); `status`, when present, is the
raw string sent by the caller. -/
structure CreatePayload where
  service_id : String
  user_id : Option (Option String) := none
  staff_user_id : Option (Option String) := none
  business_customer_id : Option (Option String) := none
  start_time : String
  end_time : String
  status : Option String := none
deriving DecidableEq, Repr

/-! ### String validators used by the zod schema -/

def isHexDigit (c : Char) : Bool :=
  c.isDigit || ('a' ≤ c && c ≤ 'f') || ('A' ≤ c && c ≤ 'F')

def uuidVersionChar (c : Char) : Bool :=
  '1' ≤ c && c ≤ '8'

def uuidVariantChar (c : Char) : Bool :=
  c = '8' || c = '9' || c = 'a' || c = 'b' || c = 'A' || c = 'B'

def headCharIs (g : String) (p : Char → Bool) : Bool :=
  match g.data with
  | c :: _ => p c
  | [] => false

/-- `z.uuid`: 8-4-4-4-12 hex groups with an RFC 4122 version digit (1-8)
and variant nibble (8, 9, a, b), or the nil/max UUID. -/
def isUuid (s : String) : Bool :=
  s = "00000000-0000-0000-0000-000000000000" ||
  s = "ffffffff-ffff-ffff-ffff-ffffffffffff" ||
  match splitOnChar '-' s with
  | [g1, g2, g3, g4, g5] =>
    g1.length = 8 && g2.length = 4 && g3.length = 4 && g4.length = 4 &&
    g5.length = 12 &&
    (g1.data ++ g2.data ++ g3.data ++ g4.data ++ g5.data).all isHexDigit &&
    headCharIs g3 uuidVersionChar && headCharIs g4 uuidVariantChar
  | _ => false

/-- A time-of-day string as accepted by `z.iso.time`:
hours, minutes, optional seconds with an optional fraction (kept as its
digit list). -/
structure IsoTime where
  hh : Nat
  mm : Nat
  sec : Option (Nat × Option (List Char))
deriving DecidableEq, Repr

def digitVal (c : Char) : Nat := c.toNat - 48

def validHH (h1 h2 : Char) : Bool :=
  ((h1 = '0' || h1 = '1') && h2.isDigit) || (h1 = '2' && '0' ≤ h2 && h2 ≤ '3')

def validSixty (m1 m2 : Char) : Bool :=
  '0' ≤ m1 && m1 ≤ '5' && m2.isDigit

/-- `z.iso.time` (zod v4, default precision): the anchored regular
expression `([01]d|2[0-3]):[0-5]d(:[0-5]d(.d+)?)?`, returned as a parsed
`IsoTime` when it matches. -/
def parseIsoTime (s : String) : Option IsoTime :=
  match s.data with
  | [h1, h2, ':', m1, m2] =>
    if validHH h1 h2 && validSixty m1 m2 then
      some ⟨digitVal h1 * 10 + digitVal h2, digitVal m1 * 10 + digitVal m2, none⟩
    else none
  | [h1, h2, ':', m1, m2, ':', s1, s2] =>
    if validHH h1 h2 && validSixty m1 m2 && validSixty s1 s2 then
      some ⟨digitVal h1 * 10 + digitVal h2, digitVal m1 * 10 + digitVal m2,
            some (digitVal s1 * 10 + digitVal s2, none)⟩
    else none
  | h1 :: h2 :: ':' :: m1 :: m2 :: ':' :: s1 :: s2 :: '.' :: frac =>
    if validHH h1 h2 && validSixty m1 m2 && validSixty s1 s2 &&
        !frac.isEmpty && frac.all Char.isDigit then
      some ⟨digitVal h1 * 10 + digitVal h2, digitVal m1 * 10 + digitVal m2,
            some (digitVal s1 * 10 + digitVal s2, some frac)⟩
    else none
  | _ => none

def msOfFrac : Option (List Char) → Nat
  | none => 0
  | some ds =>
    match ds.take 3 with
    | [a] => digitVal a * 100
    | [a, b] => digitVal a * 100 + digitVal b * 10
    | [a, b, c] => digitVal a * 100 + digitVal b * 10 + digitVal c
    | _ => 0

/-- `new Date(t).getTime()` for a bare time string, modulo the fixed
default date the V8 legacy parser supplies: milliseconds of day. -/
def msOfDay (t : IsoTime) : Nat :=
  t.hh * 3600000 + t.mm * 60000 +
    (match t.sec with
     | none => 0
     | some (ss, frac) => ss * 1000 + msOfFrac frac)

/-- The schema's second refine, `new Date(end_time) > new Date(start_time)`,
on data whose fields already matched `z.iso.time`. -/
def endAfterStart (startT endT : String) : Bool :=
  match parseIsoTime startT, parseIsoTime endT with
  | some a, some b => msOfDay b > msOfDay a
  | _, _ => false

def statusOfString (s : String) : Option Status :=
  if s = "pending" then some .pending
  else if s = "confirmed" then some .confirmed
  else if s = "cancelled" then some .cancelled
  else if s = "completed" then some .completed
  else none

/-! ### `CreateAppointmentSchema.safeParse` -/

/-- The validated `parsedBody.data` of a successful
`CreateAppointmentSchema.safeParse`. -/
structure ParsedCreate where
  service_id : String
  user_id : Option (Option String)
  staff_user_id : Option (Option String)
  business_customer_id : Option (Option String)
  start_time : String
  end_time : String
  status : Status
deriving DecidableEq, Repr

/-- The per-field issues of the base object schema, in key order. -/
def fieldIssues (p : CreatePayload) : List String :=
  (if isUuid p.service_id then [] else ["Service ID must be a valid UUID."]) ++
  (match p.user_id with
   | some (some u) => if isUuid u then [] else ["User ID must be a valid UUID."]
   | _ => []) ++
  (match p.staff_user_id with
   | some (some u) =>
     if isUuid u then [] else ["Staff User ID must be a valid UUID."]
   | _ => []) ++
  (match p.business_customer_id with
   | some (some u) =>
     if isUuid u then [] else ["Business Customer ID must be a valid UUID."]
   | _ => []) ++
  (if (parseIsoTime p.start_time).isSome then []
   else ["Start time must be a valid ISO 8601 datetime string."]) ++
  (if (parseIsoTime p.end_time).isSome then []
   else ["End time must be a valid ISO 8601 datetime string."]) ++
  (match p.status with
   | none => []
   | some s =>
     if (statusOfString s).isSome then []
     else ["Status must be one of \x27pending\x27, \x27confirmed\x27, \x27cancelled\x27, \x27completed\x27."])

/-- First refine: `data.user_id !== null || data.business_customer_id !== null`
(false exactly when both parsed fields are JSON `null`; absent fields are
`undefined`, which is `!== null`). -/
def refineEitherOk (p : CreatePayload) : Bool :=
  match p.user_id, p.business_customer_id with
  | some none, some none => false
  | _, _ => true

def refineIssues (p : CreatePayload) : List String :=
  (if refineEitherOk p then []
   else ["Either \x27user_id\x27 or \x27business_customer_id\x27 must be non-null."]) ++
  (if endAfterStart p.start_time p.end_time then []
   else ["End time must be strictly greater than start time."])

/-- The `status` value after parsing: `.default(\x27pending\x27)` fills the
field only when it is absent. -/
def parsedStatusOf (p : CreatePayload) : Status :=
  match p.status with
  | none => Status.pending
  | some s => (statusOfString s).getD Status.pending

/-- `CreateAppointmentSchema.safeParse`: base-field issues abort before the
refines run; the two refines both run and their issues accumulate. -/
def parseCreate (p : CreatePayload) : Except (List String) ParsedCreate :=
  if fieldIssues p ≠ [] then Except.error (fieldIssues p)
  else if refineIssues p ≠ [] then Except.error (refineIssues p)
  else Except.ok ⟨p.service_id, p.user_id, p.staff_user_id,
    p.business_customer_id, p.start_time, p.end_time, parsedStatusOf p⟩

def joinIssues : List String → String
  | [] => ""
  | [m] => m
  | m :: rest => m ++ ". " ++ joinIssues rest

/-! ### The storage collaborator and the controller handlers -/

structure Db where
  businesses : List String
  services : List (String × String)
  profiles : List String
  businessCustomers : List (String × String)
  appointments : List Appointment
deriving DecidableEq, Repr

inductive CreateResult
  | badRequest (msg : String)
  | notFound (msg : String)
  | created (a : Appointment)
deriving DecidableEq, Repr

def CreateResult.statusCode : CreateResult → Nat
  | .badRequest _ => 400
  | .notFound _ => 404
  | .created _ => 201

/-- JS `undefined`/`null` both insert as SQL `NULL`. -/
def sqlNull : Option (Option String) → Option String
  | some (some u) => some u
  | _ => none

/-- The insert at the end of `createAppointment`: the row built from the
parsed payload plus the path's `business_id`; the store assigns the fresh
id and both timestamps. -/
def insertAppointment (db : Db) (businessId : String) (d : ParsedCreate)
    (newId now : String) : CreateResult × Db :=
  let a : Appointment :=
    { id := newId, business_id := businessId, service_id := d.service_id,
      user_id := sqlNull d.user_id, staff_user_id := sqlNull d.staff_user_id,
      business_customer_id := sqlNull d.business_customer_id,
      start_time := d.start_time, end_time := d.end_time, status := d.status,
      created_at := now, updated_at := now }
  (.created a, { db with appointments := db.appointments ++ [a] })

/-- The body of `AppointmentsController.createAppointment` after a
successful schema parse: the four referential checks in source order, then
the insert (a successful store insert is assumed; a store-side insert
failure is outside the modelled claims).  The returned `Db` is the state
after the handler: unchanged on every failure path. -/
def createAppointmentChecked (db : Db) (businessId : String) (d : ParsedCreate)
    (newId now : String) : CreateResult × Db :=
  if !db.businesses.contains businessId then
      (.notFound "Business not found.", db)
    else if !db.services.contains (d.service_id, businessId) then
      (.badRequest "Service not found or does not belong to this business.", db)
    else
      -- `if (user_id)`: only a present non-null value is truthy
      -- (a validated UUID is never the empty string)
      match d.user_id with
      | some (some u) =>
        if !db.profiles.contains u then
          (.badRequest "User profile not found.", db)
        else
          match d.business_customer_id with
          | some (some c) =>
            if !db.businessCustomers.contains (c, businessId) then
              (.badRequest "Business-customer not found or does not belong to this business.", db)
            else insertAppointment db businessId d newId now
          | _ => insertAppointment db businessId d newId now
      | _ =>
        match d.business_customer_id with
        | some (some c) =>
          if !db.businessCustomers.contains (c, businessId) then
            (.badRequest "Business-customer not found or does not belong to this business.", db)
          else insertAppointment db businessId d newId now
        | _ => insertAppointment db businessId d newId now

/-- `AppointmentsController.createAppointment`: schema parse (400 with the
joined issue messages on failure), then the referential checks and the
insert. -/
def createAppointment (db : Db) (businessId : String) (body : CreatePayload)
    (newId now : String) : CreateResult × Db :=
  match parseCreate body with
  | .error issues => (.badRequest (joinIssues issues), db)
  | .ok d => createAppointmentChecked db businessId d newId now

/-! ### `updateAppointmentStatus` and `deleteAppointment` -/

inductive StatusResult
  | badRequest (msg : String)
  | notFound (msg : String)
  | ok (a : Appointment)
deriving DecidableEq, Repr

def StatusResult.statusCode : StatusResult → Nat
  | .badRequest _ => 400
  | .notFound _ => 404
  | .ok _ => 200

/-- JS falsiness of `payload.start_time` / `payload.end_time`: absent or
the empty string. -/
def falsyOptStr : Option String → Bool
  | none => true
  | some s => s.isEmpty

/-- The `updateData` accumulated by the `switch (action)`. -/
inductive StatusUpdateData
  | setStatus (st : Status)
  | resched (startT endT : String)
deriving DecidableEq, Repr

def findAppointment (db : Db) (id : String) : Option Appointment :=
  db.appointments.find? (fun a => a.id == id)

def applyStatusUpdate (a : Appointment) (u : StatusUpdateData) (now : String) :
    Appointment :=
  match u with
  | .setStatus st => { a with status := st, updated_at := now }
  | .resched s e =>
    { a with start_time := s, end_time := e, status := Status.pending,
             updated_at := now }

def replaceAppointment (db : Db) (a' : Appointment) : Db :=
  { db with
    appointments := db.appointments.map (fun a => if a.id == a'.id then a' else a) }

/-- The `.update(...).eq(\x27id\x27, id).select().single()` call: `PGRST116`
(no row) is the 404 branch, otherwise the matched row is rewritten and
returned. -/
def runStatusUpdate (db : Db) (id : String) (u : StatusUpdateData)
    (now : String) : StatusResult × Db :=
  match findAppointment db id with
  | none => (.notFound "Appointment not found", db)
  | some a =>
    let a' := applyStatusUpdate a u now
    (.ok a', replaceAppointment db a')

/-- `AppointmentsController.updateAppointmentStatus`. -/
def updateAppointmentStatus (db : Db) (id : String) (action : String)
    (startT endT : Option String) (now : String) : StatusResult × Db :=
  if action = "approve" then
    runStatusUpdate db id (.setStatus .confirmed) now
  else if action = "cancel" then
    runStatusUpdate db id (.setStatus .cancelled) now
  else if action = "reschedule" then
    if falsyOptStr startT || falsyOptStr endT then
      (.badRequest "Missing start_time or end_time for reschedule", db)
    else
      runStatusUpdate db id (.resched (startT.getD "") (endT.getD "")) now
  else
    (.badRequest "Invalid action. Must be approve, cancel, or reschedule", db)

/-- `AppointmentsController.deleteAppointment`: the handler has only the
store-error branch (500) and the unconditional 204; `storageError` is the
collaborator's reported failure, if any. -/
def deleteAppointment (db : Db) (id : String) (storageError : Option String) :
    Nat × Db :=
  match storageError with
  | some _ => (500, db)
  | none =>
    (204, { db with appointments := db.appointments.filter (fun a => !(a.id == id)) })

/-! ## Theorems -/

def emptyDb : Db :=
  { businesses := [], services := [], profiles := [], businessCustomers := [],
    appointments := [] }

/-- Claim C3: for every role string, resource and action such that no entry
of the permission table grants the triple (every role in the caller's role
list fails the table lookup, which in particular is the case for every
(role, resource) pair absent from the table), the `canAccessResource` gate
answers 403 (forbidden) and the handler is not invoked. -/
theorem c3_default_deny (roleStr : String) (res : Resource) (act : Action)
    (h : ∀ r ∈ splitComma roleStr, roleGrants r res act = false) :
    canAccessResource res act (some ⟨some roleStr⟩) = GateResult.forbidden ∧
    canAccessResource res act (some ⟨some roleStr⟩) ≠ GateResult.handlerRun := by
  have hperm : hasPermission (splitComma roleStr) res act = false := by
    unfold hasPermission
    rw [List.any_eq_false]
    intro r hr
    simp [h r hr]
  refine ⟨?_, ?_⟩ <;> simp [canAccessResource, hperm]

/-- Witness for C3 at the pair the claim singles out: `businessStaff` has no
`appointment` entry, so a create request on appointments is forbidden. -/
theorem c3_witness :
    canAccessResource Resource.appointment Action.create
      (some ⟨some "businessStaff"⟩) = GateResult.forbidden ∧
    canAccessResource Resource.appointment Action.create
      (some ⟨some "businessStaff"⟩) ≠ GateResult.handlerRun :=
  c3_default_deny "businessStaff" Resource.appointment Action.create (by decide)

/-- Claim C4: the role loop grants exactly when some held role's permission
map grants the pair (union semantics), so the result is independent of the
order in which the roles are listed; and when no held role grants the pair
the check fails. -/
theorem c4_union_of_roles (roles roles2 : List String) (res : Resource)
    (act : Action) (hperm : List.Perm roles roles2) :
    (hasPermission roles res act = true ↔
      ∃ r ∈ roles, roleGrants r res act = true) ∧
    hasPermission roles res act = hasPermission roles2 res act ∧
    ((∀ r ∈ roles, roleGrants r res act = false) →
      hasPermission roles res act = false) := by
  refine ⟨?_, ?_, ?_⟩
  · unfold hasPermission
    exact List.any_eq_true
  · have h3 : hasPermission roles res act = true ↔
        hasPermission roles2 res act = true := by
      unfold hasPermission
      rw [List.any_eq_true, List.any_eq_true]
      constructor
      · rintro ⟨r, hr, hg⟩
        exact ⟨r, hperm.mem_iff.mp hr, hg⟩
      · rintro ⟨r, hr, hg⟩
        exact ⟨r, hperm.mem_iff.mpr hr, hg⟩
    cases ha : hasPermission roles res act <;>
      cases hb : hasPermission roles2 res act <;> simp_all
  · intro h
    unfold hasPermission
    rw [List.any_eq_false]
    intro r hr
    simp [h r hr]

/-- Witness for C4 on the spec's union example: `customer` lacks
(business, delete) but `businessOwner` grants it, so the pair of roles is
authorized, in either listing order. -/
theorem c4_witness :
    hasPermission ["customer", "businessOwner"] Resource.business
      Action.delete = true ∧
    hasPermission ["customer", "businessOwner"] Resource.business Action.delete =
      hasPermission ["businessOwner", "customer"] Resource.business Action.delete :=
  ⟨(c4_union_of_roles ["customer", "businessOwner"] ["businessOwner", "customer"]
      Resource.business Action.delete (by decide)).1.mpr
      ⟨"businessOwner", by decide, by decide⟩,
   (c4_union_of_roles ["customer", "businessOwner"] ["businessOwner", "customer"]
      Resource.business Action.delete (by decide)).2.1⟩

/-- Claim C9: every appointment route is registered with either no guard or
the authentication-only `checkForUser` guard — never the
`canAccessResource` permission gate — and for any authenticated principal,
whatever its role claim, the guard admits the request identically, so the
permission table never influences appointment endpoints. -/
theorem c9_roles_not_consulted (route : Route) (hroute : route ∈ appointmentRoutes)
    (u1 u2 : AuthUser) :
    (∀ res act, route.guard ≠ Guard.canAccessResource res act) ∧
    runGuard route.guard (some u1) = GateResult.handlerRun ∧
    runGuard route.guard (some u1) = runGuard route.guard (some u2) := by
  simp only [appointmentRoutes, List.mem_cons, List.not_mem_nil, or_false] at hroute
  rcases hroute with rfl | rfl | rfl | rfl | rfl <;>
    exact ⟨fun res act h => Guard.noConfusion h, rfl, rfl⟩

/-- Witness for C9 at the create route, with one principal holding the
`customer` role and one holding no role at all. -/
theorem c9_witness :
    runGuard Guard.checkForUser (some ⟨some "customer"⟩) = GateResult.handlerRun ∧
    runGuard Guard.checkForUser (some ⟨some "customer"⟩) =
      runGuard Guard.checkForUser (some ⟨none⟩) :=
  ⟨(c9_roles_not_consulted
      ⟨"POST", "/businesses/:businessId/appointments", Guard.checkForUser⟩
      (by decide) ⟨some "customer"⟩ ⟨none⟩).2.1,
   (c9_roles_not_consulted
      ⟨"POST", "/businesses/:businessId/appointments", Guard.checkForUser⟩
      (by decide) ⟨some "customer"⟩ ⟨none⟩).2.2⟩

/-- Claim C10: the delete handler answers 204 whenever the storage
collaborator reports no error — for every id, matched by a stored row or
not — answers 500 when it does report one, and never answers 404. -/
theorem c10_delete_no_404 (db : Db) (id : String) (storageError : Option String) :
    (storageError = none → (deleteAppointment db id storageError).1 = 204) ∧
    (∀ m, storageError = some m → (deleteAppointment db id storageError).1 = 500) ∧
    (deleteAppointment db id storageError).1 ≠ 404 := by
  refine ⟨?_, ?_, ?_⟩ <;> cases storageError <;> simp [deleteAppointment]

/-- Witness for C10: deleting an id that matches no stored row (the store
is empty) yields 204. -/
theorem c10_witness :
    (deleteAppointment emptyDb "123e4567-e89b-12d3-a456-426614174000" none).1 = 204 :=
  (c10_delete_no_404 emptyDb "123e4567-e89b-12d3-a456-426614174000" none).1 rfl

/-! ### Fixtures for the creation claims: one business `b1` holding one
service, one registered profile and one business-customer. -/

def svcId : String := "123e4567-e89b-12d3-a456-426614174000"

def custId : String := "123e4567-e89b-12d3-a456-426614174001"

def bcId : String := "123e4567-e89b-12d3-a456-426614174002"

def sampleDb : Db :=
  { businesses := ["b1"], services := [(svcId, "b1")], profiles := [custId],
    businessCustomers := [(bcId, "b1")], appointments := [] }

/-! ### Helper lemmas about `parseCreate` and `createAppointment` -/

theorem parseCreate_ok_status (p : CreatePayload) (d : ParsedCreate)
    (hp : parseCreate p = Except.ok d) : d.status = parsedStatusOf p := by
  unfold parseCreate at hp
  split at hp
  · simp at hp
  · split at hp
    · simp at hp
    · cases hp
      rfl

theorem createAppointment_parse_ok (db : Db) (biz : String) (p : CreatePayload)
    (newId now : String) (d : ParsedCreate)
    (hp : parseCreate p = Except.ok d) :
    createAppointment db biz p newId now =
      createAppointmentChecked db biz d newId now := by
  unfold createAppointment
  rw [hp]

theorem createAppointmentChecked_created_status (db : Db) (biz : String)
    (d : ParsedCreate) (newId now : String) (a : Appointment) (db' : Db)
    (h : createAppointmentChecked db biz d newId now =
      (CreateResult.created a, db')) :
    a.status = d.status := by
  unfold createAppointmentChecked insertAppointment at h
  repeat' split at h
  all_goals try simp_all
  all_goals
    (obtain ⟨h1, h2⟩ := h
     subst h1
     rfl)

theorem createAppointment_created_status (db : Db) (biz : String)
    (p : CreatePayload) (newId now : String) (a : Appointment) (db' : Db)
    (h : createAppointment db biz p newId now = (CreateResult.created a, db')) :
    ∃ d, parseCreate p = Except.ok d ∧ a.status = d.status := by
  cases hp : parseCreate p with
  | error issues =>
    unfold createAppointment at h
    rw [hp] at h
    simp at h
  | ok d =>
    rw [createAppointment_parse_ok db biz p newId now d hp] at h
    exact ⟨d, rfl, createAppointmentChecked_created_status db biz d newId now a db' h⟩

/-! ### Claim C1 -/

def confirmedPayload : CreatePayload :=
  { service_id := svcId, user_id := some (some custId),
    start_time := "10:00:00", end_time := "11:00:00",
    status := some "confirmed" }

def confirmedCreated : Appointment :=
  { id := "a1", business_id := "b1", service_id := svcId,
    user_id := some custId, staff_user_id := none,
    business_customer_id := none, start_time := "10:00:00",
    end_time := "11:00:00", status := Status.confirmed,
    created_at := "t0", updated_at := "t0" }

/-- Claim C1 is false on the code: a fully valid create payload carrying
`status: "confirmed"` is persisted with status `confirmed`, not
`pending` — the schema only defaults `status` when it is absent, and the
handler stores the parsed value unchanged. -/
theorem c1_counterexample :
    (createAppointment sampleDb "b1" confirmedPayload "a1" "t0").1 =
      CreateResult.created confirmedCreated ∧
    confirmedCreated.status = Status.confirmed ∧
    Status.confirmed ≠ Status.pending :=
  ⟨rfl, rfl, by decide⟩

/-- Claim C1 as amended: for every create request that succeeds, the
persisted status is the caller-supplied one, with `pending` applied only
as a default when the payload omits `status`; in particular a payload
carrying `confirmed` is persisted as `confirmed` and a payload without a
status is persisted as `pending`. -/
theorem c1_amended_status_passthrough (db : Db) (biz : String)
    (p : CreatePayload) (newId now : String) (a : Appointment) (db' : Db)
    (h : createAppointment db biz p newId now = (CreateResult.created a, db')) :
    a.status = parsedStatusOf p ∧
    (p.status = some "confirmed" → a.status = Status.confirmed) ∧
    (p.status = none → a.status = Status.pending) := by
  obtain ⟨d, hp, hs⟩ := createAppointment_created_status db biz p newId now a db' h
  have hd := parseCreate_ok_status p d hp
  refine ⟨hs.trans hd, ?_, ?_⟩
  · intro hc
    rw [hs, hd]
    simp [parsedStatusOf, hc, statusOfString]
  · intro hc
    rw [hs, hd]
    simp [parsedStatusOf, hc]

def plainPayload : CreatePayload :=
  { service_id := svcId, user_id := some (some custId),
    start_time := "10:00:00", end_time := "11:00:00" }

def pendingCreated : Appointment :=
  { id := "ap", business_id := "b1", service_id := svcId,
    user_id := some custId, staff_user_id := none,
    business_customer_id := none, start_time := "10:00:00",
    end_time := "11:00:00", status := Status.pending,
    created_at := "t0", updated_at := "t0" }

def sampleDbPlain : Db :=
  { sampleDb with appointments := [pendingCreated] }

/-- Witness for the amended C1: a successful creation without a status
field is persisted as `pending`. -/
theorem c1_witness :
    pendingCreated.status = parsedStatusOf plainPayload ∧
    (plainPayload.status = some "confirmed" →
      pendingCreated.status = Status.confirmed) ∧
    (plainPayload.status = none → pendingCreated.status = Status.pending) :=
  c1_amended_status_passthrough sampleDb "b1" plainPayload "ap" "t0"
    pendingCreated sampleDbPlain rfl

/-! ### Claim C2 -/

def neitherPayload : CreatePayload :=
  { service_id := svcId, start_time := "10:00:00", end_time := "11:00:00" }

def neitherCreated : Appointment :=
  { id := "a2", business_id := "b1", service_id := svcId, user_id := none,
    staff_user_id := none, business_customer_id := none,
    start_time := "10:00:00", end_time := "11:00:00",
    status := Status.pending, created_at := "t0", updated_at := "t0" }

def bothPayload : CreatePayload :=
  { service_id := svcId, user_id := some (some custId),
    business_customer_id := some (some bcId),
    start_time := "10:00:00", end_time := "11:00:00" }

def bothCreated : Appointment :=
  { id := "a3", business_id := "b1", service_id := svcId,
    user_id := some custId, staff_user_id := none,
    business_customer_id := some bcId, start_time := "10:00:00",
    end_time := "11:00:00", status := Status.pending,
    created_at := "t0", updated_at := "t0" }

def bothNullPayload : CreatePayload :=
  { service_id := svcId, user_id := some none,
    business_customer_id := some none,
    start_time := "10:00:00", end_time := "11:00:00" }

/-- Claim C2 is violated by the code at its failing inputs: the schema's
refine rejects only a payload in which both customer references are
explicitly `null`; a payload omitting both passes validation and is
persisted (the repository's own test expects a 400 here), and a payload
supplying both also passes validation and is persisted. -/
theorem c2_code_behavior :
    refineEitherOk neitherPayload = true ∧
    (createAppointment sampleDb "b1" neitherPayload "a2" "t0").1 =
      CreateResult.created neitherCreated ∧
    refineEitherOk bothPayload = true ∧
    (createAppointment sampleDb "b1" bothPayload "a3" "t0").1 =
      CreateResult.created bothCreated ∧
    (createAppointment sampleDb "b1" bothNullPayload "a4" "t0").1 =
      CreateResult.badRequest
        "Either \x27user_id\x27 or \x27business_customer_id\x27 must be non-null." :=
  ⟨rfl, rfl, rfl, rfl, rfl⟩

/-! ### Claim C5 -/

def scenarioPayload : CreatePayload :=
  { service_id := svcId, user_id := some (some custId),
    start_time := "2024-02-15T10:00:00Z", end_time := "2024-02-15T11:00:00Z" }

/-- Claim C5 is violated by the code: the end-to-end scenario's payload
carries full ISO 8601 datetimes, but the schema validates `start_time` and
`end_time` with `z.iso.time`, which accepts only time-of-day strings, so
the request is rejected with 400 instead of succeeding with 201. -/
theorem c5_scenario_rejected :
    (createAppointment sampleDb "b1" scenarioPayload "a5" "t0").1 =
      CreateResult.badRequest
        "Start time must be a valid ISO 8601 datetime string.. End time must be a valid ISO 8601 datetime string." ∧
    (createAppointment sampleDb "b1" scenarioPayload "a5" "t0").1.statusCode = 400 ∧
    (parseIsoTime "2024-02-15T10:00:00Z").isSome = false ∧
    (parseIsoTime "10:00:00").isSome = true :=
  ⟨rfl, rfl, rfl, rfl⟩

/-! ### Claim C8 -/

/-- Claim C8: with a structurally valid payload, the referential checks of
`createAppointment` run in the fixed order business (404), service (400),
registered profile if supplied (400), business-customer if supplied (400);
the first failing check's error is the response, later data is never
consulted, and the store is left unchanged (the insert is skipped). -/
theorem c8_referential_check_order (db : Db) (biz : String) (p : CreatePayload)
    (newId now : String) (d : ParsedCreate)
    (hp : parseCreate p = Except.ok d) :
    (biz ∉ db.businesses →
      createAppointment db biz p newId now =
        (CreateResult.notFound "Business not found.", db)) ∧
    (biz ∈ db.businesses →
      (d.service_id, biz) ∉ db.services →
      createAppointment db biz p newId now =
        (CreateResult.badRequest
          "Service not found or does not belong to this business.", db)) ∧
    (∀ u, biz ∈ db.businesses →
      (d.service_id, biz) ∈ db.services →
      d.user_id = some (some u) → u ∉ db.profiles →
      createAppointment db biz p newId now =
        (CreateResult.badRequest "User profile not found.", db)) ∧
    (∀ c, biz ∈ db.businesses →
      (d.service_id, biz) ∈ db.services →
      (d.user_id = none ∨ d.user_id = some none ∨
        ∃ u, d.user_id = some (some u) ∧ u ∈ db.profiles) →
      d.business_customer_id = some (some c) →
      (c, biz) ∉ db.businessCustomers →
      createAppointment db biz p newId now =
        (CreateResult.badRequest
          "Business-customer not found or does not belong to this business.", db)) := by
  rw [createAppointment_parse_ok db biz p newId now d hp]
  refine ⟨?_, ?_, ?_, ?_⟩
  · intro h1
    simp [createAppointmentChecked, h1]
  · intro h1 h2
    simp [createAppointmentChecked, h1, h2]
  · intro u h1 h2 hu hpr
    simp [createAppointmentChecked, h1, h2, hu, hpr]
  · intro c h1 h2 huser hc hbc
    rcases huser with hu | hu | ⟨u, hu, hupr⟩
    · simp [createAppointmentChecked, h1, h2, hu, hc, hbc]
    · simp [createAppointmentChecked, h1, h2, hu, hc, hbc]
    · simp [createAppointmentChecked, h1, h2, hu, hupr, hc, hbc]

def noBizDb : Db :=
  { businesses := [], services := [(svcId, "b1")], profiles := [custId],
    businessCustomers := [], appointments := [] }

def plainParsed : ParsedCreate :=
  { service_id := svcId, user_id := some (some custId), staff_user_id := none,
    business_customer_id := none, start_time := "10:00:00",
    end_time := "11:00:00", status := Status.pending }

/-- Witness for C8: with the business row absent, creation answers the 404
business error and the store is untouched, although the payload's service
and profile data would themselves be invalid or valid at later checks. -/
theorem c8_witness :
    createAppointment noBizDb "b1" plainPayload "a6" "t0" =
      (CreateResult.notFound "Business not found.", noBizDb) :=
  (c8_referential_check_order noBizDb "b1" plainPayload "a6" "t0"
    plainParsed rfl).1 (by decide)

/-! ### Claims C6 and C7: the status endpoint -/

/-- Claim C6: on the status endpoint, a reschedule with a missing (or
empty) timestamp fails with the missing-timestamp validation error and
leaves the store unchanged; a reschedule with both timestamps, on an
existing appointment in any current status (hence also `confirmed`),
replaces the time window and forces status `pending`; and any action token
other than approve, cancel, reschedule fails with the invalid-action
error, leaving the store unchanged. -/
theorem c6_status_endpoint (db : Db) (id : String) (startT endT : Option String)
    (now : String) (action : String) :
    ((falsyOptStr startT || falsyOptStr endT) = true →
      updateAppointmentStatus db id "reschedule" startT endT now =
        (StatusResult.badRequest "Missing start_time or end_time for reschedule",
         db)) ∧
    (∀ s e a, s.isEmpty = false → e.isEmpty = false →
      findAppointment db id = some a →
      updateAppointmentStatus db id "reschedule" (some s) (some e) now =
        (StatusResult.ok
          { a with start_time := s, end_time := e, status := Status.pending,
                   updated_at := now },
         replaceAppointment db
          { a with start_time := s, end_time := e, status := Status.pending,
                   updated_at := now })) ∧
    (action ≠ "approve" → action ≠ "cancel" → action ≠ "reschedule" →
      updateAppointmentStatus db id action startT endT now =
        (StatusResult.badRequest
          "Invalid action. Must be approve, cancel, or reschedule", db)) := by
  refine ⟨?_, ?_, ?_⟩
  · intro hmiss
    simp [updateAppointmentStatus, hmiss]
  · intro s e a hse hee hfind
    simp [updateAppointmentStatus, falsyOptStr, hse, hee, runStatusUpdate,
      hfind, applyStatusUpdate]
  · intro h1 h2 h3
    simp [updateAppointmentStatus, h1, h2, h3]

def apptConfirmed : Appointment :=
  { id := "s1", business_id := "b1", service_id := svcId,
    user_id := some custId, staff_user_id := none,
    business_customer_id := none, start_time := "10:00:00",
    end_time := "11:00:00", status := Status.confirmed,
    created_at := "t0", updated_at := "t0" }

def statusDb : Db :=
  { emptyDb with appointments := [apptConfirmed] }

/-- Witness for C6 on a stored `confirmed` appointment: reschedule without
a start time is the missing-timestamp 400 with the store untouched,
reschedule with both timestamps moves it back to `pending` with the new
window, and the token `complete` is the invalid-action 400. -/
theorem c6_witness :
    updateAppointmentStatus statusDb "s1" "reschedule" none (some "12:00:00")
        "t1" =
      (StatusResult.badRequest "Missing start_time or end_time for reschedule",
       statusDb) ∧
    updateAppointmentStatus statusDb "s1" "reschedule" (some "15:00:00")
        (some "15:45:00") "t1" =
      (StatusResult.ok
        { apptConfirmed with start_time := "15:00:00", end_time := "15:45:00",
                             status := Status.pending, updated_at := "t1" },
       replaceAppointment statusDb
        { apptConfirmed with start_time := "15:00:00", end_time := "15:45:00",
                             status := Status.pending, updated_at := "t1" }) ∧
    updateAppointmentStatus statusDb "s1" "complete" none none "t1" =
      (StatusResult.badRequest
        "Invalid action. Must be approve, cancel, or reschedule", statusDb) :=
  ⟨(c6_status_endpoint statusDb "s1" none (some "12:00:00") "t1" "complete").1
      rfl,
   (c6_status_endpoint statusDb "s1" none (some "12:00:00") "t1" "complete").2.1
      "15:00:00" "15:45:00" apptConfirmed rfl rfl rfl,
   (c6_status_endpoint statusDb "s1" none none "t1" "complete").2.2
      (by decide) (by decide) (by decide)⟩

theorem find_after_replace (l : List Appointment) (id : String)
    (a a' : Appointment) (h : l.find? (fun x => x.id == id) = some a)
    (hid : a'.id = a.id) :
    (l.map (fun x => if x.id == a'.id then a' else x)).find?
      (fun x => x.id == id) = some a' := by
  induction l with
  | nil => simp at h
  | cons x xs ih =>
    rw [List.map_cons]
    by_cases hx : x.id = id
    · rw [List.find?_cons_of_pos _ (by simp [hx])] at h
      have hxa : x = a := by
        injection h
      have h1 : (if x.id == a'.id then a' else x) = a' := by
        simp [hid, ← hxa]
      rw [h1]
      apply List.find?_cons_of_pos
      simp [hid, ← hxa, hx]
    · rw [List.find?_cons_of_neg _ (by simp [hx])] at h
      have hpa : a.id = id := by
        have := List.find?_some h
        simpa using this
      have h2 : (if x.id == a'.id then a' else x) = x := by
        have hne : (x.id == a'.id) = false := by
          simp [hid, hpa, hx]
        simp [hne]
      rw [h2]
      rw [List.find?_cons_of_neg _ (by simp [hx])]
      exact ih h

theorem findAppointment_replace (db : Db) (id : String) (a a' : Appointment)
    (h : findAppointment db id = some a) (hid : a'.id = a.id) :
    findAppointment (replaceAppointment db a') id = some a' :=
  find_after_replace db.appointments id a a' h hid

def apptApproved : Appointment :=
  { apptConfirmed with status := Status.confirmed, updated_at := "t9" }

/-- Claim C7 is falsified by one field: applying `approve` rewrites
`updated_at` alongside `status` (here from `t0` to `t9`), so the action
does alter a field of the appointment other than status. -/
theorem c7_counterexample :
    (updateAppointmentStatus statusDb "s1" "approve" none none "t9").1 =
      StatusResult.ok apptApproved ∧
    apptApproved.status = Status.confirmed ∧
    apptApproved.updated_at ≠ apptConfirmed.updated_at :=
  ⟨rfl, rfl, by decide⟩

/-- Claim C7 as amended: `approve` sets status to `confirmed` and `cancel`
to `cancelled`, each refreshing `updated_at` and altering no other field
(the frame is the record update itself); both succeed from every current
status of the stored row, and a second `approve` on the result succeeds
again and leaves the status `confirmed`. -/
theorem c7_amended_frame (db : Db) (id : String) (now : String)
    (a : Appointment) (hfind : findAppointment db id = some a) :
    updateAppointmentStatus db id "approve" none none now =
      (StatusResult.ok { a with status := Status.confirmed, updated_at := now },
       replaceAppointment db
        { a with status := Status.confirmed, updated_at := now }) ∧
    updateAppointmentStatus db id "cancel" none none now =
      (StatusResult.ok { a with status := Status.cancelled, updated_at := now },
       replaceAppointment db
        { a with status := Status.cancelled, updated_at := now }) ∧
    (updateAppointmentStatus
        (updateAppointmentStatus db id "approve" none none now).2
        id "approve" none none now).1 =
      StatusResult.ok { a with status := Status.confirmed, updated_at := now } := by
  have h1 : updateAppointmentStatus db id "approve" none none now =
      (StatusResult.ok { a with status := Status.confirmed, updated_at := now },
       replaceAppointment db
        { a with status := Status.confirmed, updated_at := now }) := by
    simp [updateAppointmentStatus, runStatusUpdate, hfind, applyStatusUpdate]
  have h2 : updateAppointmentStatus db id "cancel" none none now =
      (StatusResult.ok { a with status := Status.cancelled, updated_at := now },
       replaceAppointment db
        { a with status := Status.cancelled, updated_at := now }) := by
    simp [updateAppointmentStatus, runStatusUpdate, hfind, applyStatusUpdate]
  refine ⟨h1, h2, ?_⟩
  rw [h1]
  have hfind2 := findAppointment_replace db id a
    { a with status := Status.confirmed, updated_at := now } hfind rfl
  simp [updateAppointmentStatus, runStatusUpdate, hfind2, applyStatusUpdate]

def apptCancelled : Appointment :=
  { apptConfirmed with status := Status.cancelled, updated_at := "t9" }

/-- Witness for the amended C7 on the stored `confirmed` appointment:
approve and cancel each rewrite exactly status plus `updated_at`, and the
redundant second approve also answers 200 with status still `confirmed`. -/
theorem c7_witness :
    updateAppointmentStatus statusDb "s1" "approve" none none "t9" =
      (StatusResult.ok apptApproved, replaceAppointment statusDb apptApproved) ∧
    updateAppointmentStatus statusDb "s1" "cancel" none none "t9" =
      (StatusResult.ok apptCancelled,
       replaceAppointment statusDb apptCancelled) ∧
    (updateAppointmentStatus
        (updateAppointmentStatus statusDb "s1" "approve" none none "t9").2
        "s1" "approve" none none "t9").1 = StatusResult.ok apptApproved :=
  c7_amended_frame statusDb "s1" "t9" apptConfirmed rfl

end Backend
